import Mathlib

/-!
Shallow embedding of the withdrawal settlement and webhook reconciliation
flow of the taxi-money-driver repository.

Embedded source files:
- src/app/api/payments/withdraw/route.ts: two draft variants of the driver
  cashout route are present in the file, separated by a document marker.
  The first variant (lines 31-227) stores the transaction amount as a
  negative number — which the Transaction schema's amount validation
  (min 1) rejects at create, so for every valid request this variant
  answers 500 with nothing persisted, never reaching its gateway call or
  its post-accept debit; the second variant (lines 248-446) stores the
  amount as a positive number and leaves the balance untouched until the
  webhook. They are embedded as initiateWithdrawalV1 and
  initiateWithdrawalV2.
- src/unnamed/part_002 (declared as /app/api/webhooks/fapshi/route.ts):
  the webhook reconciler, embedded as fapshiWebhookPOST.
- src/lib/db/models/Transaction.ts and the Driver model (src/unnamed/part_007):
  the data model, embedded as Txn and Driver below.

Modelling conventions: MongoDB document ids are opaque strings; the store
is a pair of lists; findById / findOne / findOneAndUpdate / findByIdAndUpdate
become list lookups and conditional maps; each HTTP handler invocation is a
pure function from (request payload, store) to (HTTP status code, store),
i.e. a handler runs to completion before the next one starts; JSON fields
that may be absent are Option values and JavaScript falsiness of a missing
or empty string field is the predicate falsyStr; Date.now is an explicit
Nat parameter; the outcome of the fetch to the Fapshi gateway is an
explicit GatewayOutcome parameter (accepted / rejected / unparseable body /
transport error); environment-variable checks, logging and response message
strings are dropped, response status codes and the data they carry are kept.
-/

namespace TaxiMoney

/-- Transaction status enum of src/lib/db/models/Transaction.ts. -/
inductive TxStatus where
  | Pending
  | Success
  | Failed
deriving DecidableEq

/-- Driver account fields used by the core (src/unnamed/part_007): Mongo id,
Supabase authId, and the wallet balance. -/
structure Driver where
  id : String
  authId : String
  availableBalance : Int
deriving DecidableEq

/-- Transaction document (src/lib/db/models/Transaction.ts). -/
structure Txn where
  id : String
  userId : String
  userType : String
  type : String
  status : TxStatus
  amount : Int
  method : String
  phoneNumber : String
  externalId : Option String
  fapshiTransactionId : Option String
deriving DecidableEq

/-- The document store: the Driver and Transaction collections. -/
structure DB where
  drivers : List Driver
  transactions : List Txn
deriving DecidableEq

/-- Transaction.findById. -/
def DB.findTxnById (db : DB) (i : String) : Option Txn :=
  db.transactions.find? (fun t => t.id == i)

/-- Driver.findById / Driver.findOne on _id. -/
def DB.findDriverById (db : DB) (i : String) : Option Driver :=
  db.drivers.find? (fun d => d.id == i)

/-- Driver.findOne on authId. -/
def DB.findDriverByAuthId (db : DB) (a : String) : Option Driver :=
  db.drivers.find? (fun d => d.authId == a)

/-- Transaction.findByIdAndUpdate: apply f to every transaction whose _id
matches. -/
def DB.updateTxn (db : DB) (i : String) (f : Txn → Txn) : DB :=
  { db with transactions := db.transactions.map (fun t => if t.id == i then f t else t) }

/-- Driver.findByIdAndUpdate / findOneAndUpdate on _id: apply f to every
driver whose _id matches. -/
def DB.updateDriver (db : DB) (i : String) (f : Driver → Driver) : DB :=
  { db with drivers := db.drivers.map (fun d => if d.id == i then f d else d) }

/-- Status of the transaction with the given _id, if present. -/
def DB.txnStatus (db : DB) (i : String) : Option TxStatus :=
  (db.findTxnById i).map (fun t => t.status)

/-- Balance of the driver with the given _id, if present. -/
def DB.balance (db : DB) (i : String) : Option Int :=
  (db.findDriverById i).map (fun d => d.availableBalance)

/-- JavaScript falsiness of an optional string field: absent or empty. -/
def falsyStr : Option String → Bool
  | none => true
  | some s => s == ""

/-- The fields the webhook handler reads from the Fapshi callback body
(src/unnamed/part_002 lines 17-19). -/
structure WebhookPayload where
  status : Option String
  transaction_id : Option String
  external_id : Option String
deriving DecidableEq

/-- Result of one webhook handler invocation: HTTP status and new store. -/
structure WebhookResult where
  statusCode : Nat
  db : DB
deriving DecidableEq

/-- The webhook reconciler POST of src/unnamed/part_002
(/app/api/webhooks/fapshi/route.ts).

Control flow mirrored line by line: missing external_id or status gives 400;
the transaction is looked up with Transaction.findById on the payload's
external_id; an unmatched id gives 404; a non-Pending transaction gives 200
with no change; on status SUCCESS the driver's balance is incremented by the
transaction's stored amount with findOneAndUpdate (no balance filter), a
missing driver throws, which the catch block turns into 500 before the
transaction is touched; otherwise (any status other than SUCCESS) the
transaction is marked Failed; matched outcomes answer 200. -/
def fapshiWebhookPOST (body : WebhookPayload) (db : DB) : WebhookResult :=
  if falsyStr body.external_id || falsyStr body.status then
    { statusCode := 400, db := db }
  else
    let ourExternalId := body.external_id.getD ""
    let status := body.status.getD ""
    match db.findTxnById ourExternalId with
    | none => { statusCode := 404, db := db }
    | some transaction =>
      if transaction.status ≠ TxStatus.Pending then
        { statusCode := 200, db := db }
      else if status == "SUCCESS" then
        match db.findDriverById transaction.userId with
        | none => { statusCode := 500, db := db }
        | some _ =>
          let db1 := db.updateDriver transaction.userId
            (fun d => { d with availableBalance := d.availableBalance + transaction.amount })
          let db2 := db1.updateTxn transaction.id
            (fun t => { t with status := TxStatus.Success,
                               fapshiTransactionId := body.transaction_id })
          { statusCode := 200, db := db2 }
      else
        { statusCode := 200,
          db := db.updateTxn transaction.id (fun t => { t with status := TxStatus.Failed }) }

/-- The state component of one webhook delivery. -/
def webhookStep (body : WebhookPayload) (db : DB) : DB :=
  (fapshiWebhookPOST body db).db

/-- Synchronous outcome of the fetch to the Fapshi disbursement endpoint. -/
inductive GatewayOutcome where
  | accepted (transId : String)
  | rejected (message : String)
  | unparseable (text : String)
  | transportError
deriving DecidableEq

/-- Result of one withdrawal-route invocation: HTTP status, new store,
whether the gateway was called, and the data carried in the JSON response. -/
structure InitResult where
  statusCode : Nat
  db : DB
  gatewayCalled : Bool
  currentBalance : Option Int
  required : Option Int
  newBalance : Option Int
  transId : Option String
  transactionId : Option String
deriving DecidableEq

/-- Correlation id generated by the first withdraw-route variant
(src/app/api/payments/withdraw/route.ts line 94). -/
def mkExternalIdV1 (now : Nat) (driverId : String) : String :=
  "withdraw-" ++ Nat.repr now ++ "-" ++ driverId

/-- Correlation id generated by the second withdraw-route variant
(src/app/api/payments/withdraw/route.ts line 311). -/
def mkExternalIdV2 (now : Nat) (driverId : String) : String :=
  "withdrawal-" ++ Nat.repr now ++ "-" ++ driverId

/-- The Transaction schema's amount validation
(src/lib/db/models/Transaction.ts lines 62-67: min 1, max 500000 XAF).
Transaction.create runs document validation and throws a ValidationError
when it fails, so no document is inserted. -/
def txnAmountValid (a : Int) : Prop := 1 ≤ a ∧ a ≤ 500000

instance (a : Int) : Decidable (txnAmountValid a) :=
  inferInstanceAs (Decidable (1 ≤ a ∧ a ≤ 500000))

/-- First draft of the withdraw route (src/app/api/payments/withdraw/route.ts
lines 31-227), beginning after authentication and body validation.

It stores the transaction amount negated. Transaction.create enforces the
schema's amount bounds (txnAmountValid): the negated amount of any
Zod-valid request (a positive number) violates the min-1 bound, so create
throws a ValidationError which the outer catch turns into 500 with nothing
persisted, no gateway call and no balance change. The branches below the
create encode the rest of the source text, reachable only if the stored
amount were within the schema bounds: on gateway acceptance the Fapshi id
is recorded and the balance immediately debited; on a rejection or an
unparseable response body the transaction is marked Failed and the thrown
error reaches the inner catch, which increments the balance back and marks
the transaction Failed again; a transport error from fetch itself reaches
the same catch; the outer catch answers 500. -/
def initiateWithdrawalV1 (db : DB) (authId : String) (amountAsNumber : Int)
    (method phoneNumber : String) (now : Nat) (newTxnId : String)
    (gw : GatewayOutcome) : InitResult :=
  match db.findDriverByAuthId authId with
  | none =>
    { statusCode := 404, db := db, gatewayCalled := false, currentBalance := none,
      required := none, newBalance := none, transId := none, transactionId := none }
  | some driver =>
    if driver.availableBalance < amountAsNumber then
      { statusCode := 400, db := db, gatewayCalled := false,
        currentBalance := some driver.availableBalance,
        required := some amountAsNumber, newBalance := none,
        transId := none, transactionId := none }
    else
      let externalId := mkExternalIdV1 now driver.id
      let txn : Txn :=
        { id := newTxnId, userId := driver.id, userType := "Driver",
          type := "Withdrawal", status := TxStatus.Pending,
          amount := -amountAsNumber, method := method,
          phoneNumber := phoneNumber, externalId := some externalId,
          fapshiTransactionId := none }
      if ¬ txnAmountValid txn.amount then
        { statusCode := 500, db := db, gatewayCalled := false, currentBalance := none,
          required := none, newBalance := none, transId := none, transactionId := none }
      else
      let db1 : DB := { db with transactions := db.transactions ++ [txn] }
      match gw with
      | GatewayOutcome.accepted fapshiTransId =>
        let db2 := db1.updateTxn newTxnId
          (fun t => { t with fapshiTransactionId := some fapshiTransId })
        let db3 := db2.updateDriver driver.id
          (fun d => { d with availableBalance := d.availableBalance - amountAsNumber })
        { statusCode := 200, db := db3, gatewayCalled := true, currentBalance := none,
          required := none, newBalance := some (driver.availableBalance - amountAsNumber),
          transId := some fapshiTransId, transactionId := some newTxnId }
      | GatewayOutcome.rejected _ =>
        let db2 := db1.updateTxn newTxnId (fun t => { t with status := TxStatus.Failed })
        let db3 := db2.updateDriver driver.id
          (fun d => { d with availableBalance := d.availableBalance + amountAsNumber })
        let db4 := db3.updateTxn newTxnId (fun t => { t with status := TxStatus.Failed })
        { statusCode := 500, db := db4, gatewayCalled := true, currentBalance := none,
          required := none, newBalance := none, transId := none, transactionId := none }
      | GatewayOutcome.unparseable _ =>
        let db2 := db1.updateTxn newTxnId (fun t => { t with status := TxStatus.Failed })
        let db3 := db2.updateDriver driver.id
          (fun d => { d with availableBalance := d.availableBalance + amountAsNumber })
        let db4 := db3.updateTxn newTxnId (fun t => { t with status := TxStatus.Failed })
        { statusCode := 500, db := db4, gatewayCalled := true, currentBalance := none,
          required := none, newBalance := none, transId := none, transactionId := none }
      | GatewayOutcome.transportError =>
        let db2 := db1.updateDriver driver.id
          (fun d => { d with availableBalance := d.availableBalance + amountAsNumber })
        let db3 := db2.updateTxn newTxnId (fun t => { t with status := TxStatus.Failed })
        { statusCode := 500, db := db3, gatewayCalled := true, currentBalance := none,
          required := none, newBalance := none, transId := none, transactionId := none }

/-- Second draft of the withdraw route (src/app/api/payments/withdraw/route.ts
lines 248-446), beginning after authentication and body validation.

It stores the transaction amount positive, and on gateway acceptance records
the Fapshi id, leaves the balance untouched, and answers 200 with the
pre-call balance. A rejection or an unparseable body marks the transaction
Failed inline, then the inner catch marks it Failed again; a transport error
reaches the catch directly; the outer catch answers 500. -/
def initiateWithdrawalV2 (db : DB) (authId : String) (amountAsNumber : Int)
    (method phoneNumber : String) (now : Nat) (newTxnId : String)
    (gw : GatewayOutcome) : InitResult :=
  match db.findDriverByAuthId authId with
  | none =>
    { statusCode := 404, db := db, gatewayCalled := false, currentBalance := none,
      required := none, newBalance := none, transId := none, transactionId := none }
  | some driver =>
    if driver.availableBalance < amountAsNumber then
      { statusCode := 400, db := db, gatewayCalled := false,
        currentBalance := some driver.availableBalance,
        required := some amountAsNumber, newBalance := none,
        transId := none, transactionId := none }
    else
      let externalId := mkExternalIdV2 now driver.id
      let txn : Txn :=
        { id := newTxnId, userId := driver.id, userType := "Driver",
          type := "Withdrawal", status := TxStatus.Pending,
          amount := amountAsNumber, method := method,
          phoneNumber := phoneNumber, externalId := some externalId,
          fapshiTransactionId := none }
      let db1 : DB := { db with transactions := db.transactions ++ [txn] }
      match gw with
      | GatewayOutcome.accepted fapshiTransId =>
        let db2 := db1.updateTxn newTxnId
          (fun t => { t with fapshiTransactionId := some fapshiTransId })
        { statusCode := 200, db := db2, gatewayCalled := true,
          currentBalance := some driver.availableBalance, required := none,
          newBalance := none, transId := some fapshiTransId,
          transactionId := some newTxnId }
      | GatewayOutcome.rejected _ =>
        let db2 := db1.updateTxn newTxnId (fun t => { t with status := TxStatus.Failed })
        let db3 := db2.updateTxn newTxnId (fun t => { t with status := TxStatus.Failed })
        { statusCode := 500, db := db3, gatewayCalled := true, currentBalance := none,
          required := none, newBalance := none, transId := none, transactionId := none }
      | GatewayOutcome.unparseable _ =>
        let db2 := db1.updateTxn newTxnId (fun t => { t with status := TxStatus.Failed })
        let db3 := db2.updateTxn newTxnId (fun t => { t with status := TxStatus.Failed })
        { statusCode := 500, db := db3, gatewayCalled := true, currentBalance := none,
          required := none, newBalance := none, transId := none, transactionId := none }
      | GatewayOutcome.transportError =>
        let db2 := db1.updateTxn newTxnId (fun t => { t with status := TxStatus.Failed })
        { statusCode := 500, db := db2, gatewayCalled := true, currentBalance := none,
          required := none, newBalance := none, transId := none, transactionId := none }

/-! Concrete sample data used to exercise the handlers. -/

/-- A driver with 100 units available. -/
def drvLow : Driver := { id := "d1", authId := "auth1", availableBalance := 100 }

/-- A driver with 1000 units available. -/
def drvRich : Driver := { id := "d1", authId := "auth1", availableBalance := 1000 }

/-- A pending withdrawal of 150 stored with the negated amount, the way the
first withdraw-route variant creates it. -/
def txnNeg150 : Txn :=
  { id := "t1", userId := "d1", userType := "Driver", type := "Withdrawal",
    status := TxStatus.Pending, amount := -150, method := "MTN",
    phoneNumber := "+237650000001",
    externalId := some "withdraw-1700000000000-d1", fapshiTransactionId := none }

/-- Store with a 100-unit driver and a pending 150-unit withdrawal. -/
def dbLow : DB := { drivers := [drvLow], transactions := [txnNeg150] }

/-- Store with a 1000-unit driver and no transactions. -/
def dbRich : DB := { drivers := [drvRich], transactions := [] }

/-- A success notification for transaction t1. -/
def successPayload : WebhookPayload :=
  { status := some "SUCCESS", transaction_id := some "f1", external_id := some "t1" }

/-- A notification for t1 whose status token is neither SUCCESS nor FAILED. -/
def createdPayload : WebhookPayload :=
  { status := some "CREATED", transaction_id := none, external_id := some "t1" }

/-- A driver with a hex ObjectId-shaped _id and 1000 units. -/
def drvHex : Driver :=
  { id := "68ee0000000000000000d001", authId := "auth1", availableBalance := 1000 }

/-- Store holding only drvHex. -/
def dbHex : DB := { drivers := [drvHex], transactions := [] }

/-- A full second-variant initiation against dbHex that the gateway accepts. -/
def initHexRun : InitResult :=
  initiateWithdrawalV2 dbHex "auth1" 400 "MTN" "+237650000001" 1700000000000
    "68f0000000000000000000aa" (GatewayOutcome.accepted "FAPSHI1")

/-- The webhook delivery Fapshi would send for initHexRun, carrying back the
correlation id the initiator put in the outbound externalId field. -/
def hexCallback : WebhookPayload :=
  { status := some "SUCCESS", transaction_id := some "FAPSHI1",
    external_id := some "withdrawal-1700000000000-68ee0000000000000000d001" }

/-- The pending 150-unit withdrawal already finalized as Success. -/
def txnDone : Txn := { txnNeg150 with status := TxStatus.Success }

/-- Store with the finalized transaction. -/
def dbDone : DB := { drivers := [drvLow], transactions := [txnDone] }

/-- A pending withdrawal whose userId matches no driver in dbOrphan. -/
def txnOrphan : Txn := { txnNeg150 with userId := "ghost" }

/-- Store with a pending transaction but no account for its userId. -/
def dbOrphan : DB := { drivers := [drvLow], transactions := [txnOrphan] }

/-- A payload with both mandatory fields absent. -/
def emptyPayload : WebhookPayload :=
  { status := none, transaction_id := none, external_id := none }

/-- A well-formed payload whose correlation id matches no transaction. -/
def unknownPayload : WebhookPayload :=
  { status := some "SUCCESS", transaction_id := some "f9",
    external_id := some "withdraw-999-unknown" }

/-- A driver with 600 units available. -/
def drvMid : Driver := { id := "d1", authId := "auth1", availableBalance := 600 }

/-- Store with the 600-unit driver and no transactions. -/
def dbMid : DB := { drivers := [drvMid], transactions := [] }

/-- Numeric value of a digit character (proof support for reasoning about
the decimal rendering inside the correlation ids). -/
def digitVal (c : Char) : Nat := c.toNat - 48

/-- Decode a list of digit characters back to a number (proof support). -/
def decodeDigits (l : List Char) : Nat :=
  l.foldl (fun a c => a * 10 + digitVal c) 0

/-! Helper lemmas about the store primitives. -/

/-- find? over a keyed conditional map: updating the found element in place. -/
theorem find_after_update {α : Type} (key : α → String) (i : String) (f : α → α)
    (hf : ∀ a, key (f a) = key a) :
    ∀ (l : List α) (x : α), l.find? (fun a => key a == i) = some x →
      (l.map (fun a => if key a == i then f a else a)).find? (fun a => key a == i)
        = some (f x) := by
  intro l
  induction l with
  | nil => intro x h; simp at h
  | cons a l ih =>
    intro x h
    rw [List.find?_cons] at h
    cases hk : (key a == i) with
    | true =>
      rw [hk] at h
      cases h
      simp only [List.map_cons, hk, if_true]
      rw [List.find?_cons]
      simp only [hf a, hk]
    | false =>
      rw [hk] at h
      simp only [List.map_cons, hk, Bool.false_eq_true, if_false]
      rw [List.find?_cons, hk]
      exact ih x h

/-- find? over an append of a single matching element after a failed search. -/
theorem find_append_single {α : Type} (p : α → Bool) :
    ∀ (l : List α) (x : α), l.find? p = none → p x = true →
      (l ++ [x]).find? p = some x := by
  intro l
  induction l with
  | nil =>
    intro x _ hx
    rw [List.nil_append, List.find?_cons, hx]
  | cons a l ih =>
    intro x h hx
    rw [List.find?_cons] at h
    cases ha : p a with
    | true => rw [ha] at h; simp at h
    | false =>
      rw [ha] at h
      rw [List.cons_append, List.find?_cons, ha]
      exact ih x h hx

/-- Updating a transaction leaves the driver collection untouched. -/
theorem drivers_updateTxn (db : DB) (i : String) (f : Txn → Txn) :
    (db.updateTxn i f).drivers = db.drivers := rfl

/-- Updating a driver leaves the transaction collection untouched. -/
theorem transactions_updateDriver (db : DB) (i : String) (f : Driver → Driver) :
    (db.updateDriver i f).transactions = db.transactions := rfl

/-- Transaction lookup is unaffected by a driver update. -/
theorem findTxnById_updateDriver (db : DB) (i j : String) (f : Driver → Driver) :
    (db.updateDriver j f).findTxnById i = db.findTxnById i := rfl

/-- Driver lookup is unaffected by a transaction update. -/
theorem findDriverById_updateTxn (db : DB) (i j : String) (f : Txn → Txn) :
    (db.updateTxn j f).findDriverById i = db.findDriverById i := rfl

/-- Looking up the id just updated returns the updated transaction, when the
update preserves ids. -/
theorem findTxnById_updateTxn_found (db : DB) (i : String) (f : Txn → Txn)
    (hf : ∀ t, (f t).id = t.id) (t : Txn) (h : db.findTxnById i = some t) :
    (db.updateTxn i f).findTxnById i = some (f t) := by
  simp only [DB.findTxnById] at h
  simp only [DB.updateTxn, DB.findTxnById]
  exact find_after_update (fun t => t.id) i f hf db.transactions t h

/-- Looking up the id just updated returns the updated driver, when the
update preserves ids. -/
theorem findDriverById_updateDriver_found (db : DB) (i : String) (f : Driver → Driver)
    (hf : ∀ d, (f d).id = d.id) (d : Driver) (h : db.findDriverById i = some d) :
    (db.updateDriver i f).findDriverById i = some (f d) := by
  simp only [DB.findDriverById] at h
  simp only [DB.updateDriver, DB.findDriverById]
  exact find_after_update (fun d => d.id) i f hf db.drivers d h

/-- The element located by findTxnById carries the id that was searched. -/
theorem id_of_findTxnById (db : DB) (i : String) (t : Txn)
    (h : db.findTxnById i = some t) : t.id = i := by
  have := List.find?_some h
  simpa using this

/-! Facts about the decimal rendering used inside the correlation ids. -/

/-- digitChar never produces the separator character on a decimal digit. -/
theorem digitChar_ne_dash (n : Nat) (h : n < 10) : Nat.digitChar n ≠ '-' := by
  interval_cases n <;> decide

/-- Every character produced by base-10 toDigitsCore is the digitChar of a
decimal digit or comes from the accumulator. -/
theorem toDigitsCore_mem :
    ∀ (f n : Nat) (acc : List Char) (c : Char),
      c ∈ Nat.toDigitsCore 10 f n acc →
        c ∈ acc ∨ ∃ m, m < 10 ∧ c = Nat.digitChar m := by
  intro f
  induction f with
  | zero => intro n acc c hc; exact Or.inl hc
  | succ f ih =>
    intro n acc c hc
    rw [Nat.toDigitsCore] at hc
    by_cases h0 : n / 10 = 0
    · rw [if_pos h0] at hc
      rcases List.mem_cons.mp hc with h | h
      · exact Or.inr ⟨n % 10, Nat.mod_lt n (by decide), h⟩
      · exact Or.inl h
    · rw [if_neg h0] at hc
      rcases ih (n / 10) (Nat.digitChar (n % 10) :: acc) c hc with h | h
      · rcases List.mem_cons.mp h with h2 | h2
        · exact Or.inr ⟨n % 10, Nat.mod_lt n (by decide), h2⟩
        · exact Or.inl h2
      · exact Or.inr h

/-- The decimal rendering of a Nat contains no dash. -/
theorem repr_no_dash (n : Nat) : ('-' : Char) ∉ (Nat.repr n).data := by
  intro hc
  have hdata : (Nat.repr n).data = Nat.toDigits 10 n := rfl
  rw [hdata, Nat.toDigits] at hc
  rcases toDigitsCore_mem (n + 1) n [] '-' hc with h | ⟨m, hm, hm2⟩
  · simp at h
  · exact digitChar_ne_dash m hm hm2.symm

/-- The fuel argument is irrelevant once it exceeds the number. -/
theorem toDigitsCore_fuel :
    ∀ (n f : Nat) (acc : List Char), n < f →
      Nat.toDigitsCore 10 f n acc = Nat.toDigitsCore 10 (n + 1) n acc := by
  intro n
  induction n using Nat.strong_induction_on with
  | _ n ih =>
    intro f acc hf
    match f, hf with
    | f + 1, hf =>
      rw [Nat.toDigitsCore, Nat.toDigitsCore]
      by_cases h0 : n / 10 = 0
      · rw [if_pos h0, if_pos h0]
      · rw [if_neg h0, if_neg h0]
        have hlt : n / 10 < n := Nat.div_lt_self (Nat.pos_of_ne_zero (by
          intro hz; subst hz; simp at h0)) (by decide)
        have h1 := ih (n / 10) hlt f (Nat.digitChar (n % 10) :: acc)
          (Nat.lt_of_lt_of_le hlt (Nat.le_of_succ_le_succ hf))
        have h2 := ih (n / 10) hlt n (Nat.digitChar (n % 10) :: acc) hlt
        rw [h1, h2]

/-- toDigitsCore prepends its output to the accumulator. -/
theorem toDigitsCore_acc :
    ∀ (f n : Nat) (acc : List Char),
      Nat.toDigitsCore 10 f n acc = Nat.toDigitsCore 10 f n [] ++ acc := by
  intro f
  induction f with
  | zero => intro n acc; rfl
  | succ f ih =>
    intro n acc
    rw [Nat.toDigitsCore, Nat.toDigitsCore]
    by_cases h0 : n / 10 = 0
    · rw [if_pos h0, if_pos h0]
      rfl
    · rw [if_neg h0, if_neg h0]
      rw [ih (n / 10) (Nat.digitChar (n % 10) :: acc),
          ih (n / 10) [Nat.digitChar (n % 10)]]
      simp

/-- digitVal inverts digitChar on decimal digits. -/
theorem digitVal_digitChar (m : Nat) (h : m < 10) :
    digitVal (Nat.digitChar m) = m := by
  interval_cases m <;> decide

/-- The decode fold distributes over append. -/
theorem foldl_decode_append (l1 l2 : List Char) (a : Nat) :
    List.foldl (fun a c => a * 10 + digitVal c) a (l1 ++ l2)
      = List.foldl (fun a c => a * 10 + digitVal c)
          (List.foldl (fun a c => a * 10 + digitVal c) a l1) l2 := by
  rw [List.foldl_append]

/-- Decoding inverts the decimal rendering. -/
theorem decode_toDigits : ∀ n, decodeDigits (Nat.toDigits 10 n) = n := by
  intro n
  induction n using Nat.strong_induction_on with
  | _ n ih =>
    rw [Nat.toDigits, Nat.toDigitsCore]
    by_cases h0 : n / 10 = 0
    · rw [if_pos h0]
      have hn : n < 10 := by omega
      simp [decodeDigits, digitVal_digitChar (n % 10) (Nat.mod_lt n (by decide))]
      omega
    · rw [if_neg h0]
      have hpos : 0 < n := Nat.pos_of_ne_zero (by intro hz; subst hz; simp at h0)
      have hlt : n / 10 < n := Nat.div_lt_self hpos (by decide)
      rw [toDigitsCore_fuel (n / 10) n (Nat.digitChar (n % 10) :: []) hlt]
      rw [toDigitsCore_acc]
      rw [← Nat.toDigits]
      unfold decodeDigits
      rw [foldl_decode_append]
      have hdec := ih (n / 10) hlt
      unfold decodeDigits at hdec
      rw [hdec]
      simp [digitVal_digitChar (n % 10) (Nat.mod_lt n (by decide))]
      omega

/-- Splitting at a separator absent from both left parts. -/
theorem sep_split :
    ∀ (a1 : List Char) (b1 a2 b2 : List Char),
      ('-' : Char) ∉ a1 → ('-' : Char) ∉ a2 →
      a1 ++ '-' :: b1 = a2 ++ '-' :: b2 → a1 = a2 ∧ b1 = b2 := by
  intro a1
  induction a1 with
  | nil =>
    intro b1 a2 b2 _ h2 heq
    cases a2 with
    | nil => simpa using heq
    | cons c a2 =>
      simp only [List.nil_append, List.cons_append, List.cons.injEq] at heq
      exact absurd (heq.1 ▸ List.mem_cons_self c a2) (heq.1 ▸ h2)
  | cons c a1 ih =>
    intro b1 a2 b2 h1 h2 heq
    cases a2 with
    | nil =>
      simp only [List.cons_append, List.nil_append, List.cons.injEq] at heq
      exact absurd (heq.1 ▸ List.mem_cons_self c a1) (by
        rw [heq.1] at h1; exact h1)
    | cons c2 a2 =>
      simp only [List.cons_append, List.cons.injEq] at heq
      obtain ⟨hc, hrest⟩ := heq
      have h1' : ('-' : Char) ∉ a1 := fun hm => h1 (List.mem_cons_of_mem c hm)
      have h2' : ('-' : Char) ∉ a2 := fun hm => h2 (List.mem_cons_of_mem c2 hm)
      obtain ⟨hl, hr⟩ := ih b1 a2 b2 h1' h2' hrest
      exact ⟨by rw [hc, hl], hr⟩

/-- The second variant's correlation id determines the millisecond timestamp
and the driver id that produced it. -/
theorem mkExternalIdV2_inj (t1 t2 : Nat) (d1 d2 : String)
    (heq : mkExternalIdV2 t1 d1 = mkExternalIdV2 t2 d2) : t1 = t2 ∧ d1 = d2 := by
  have hd := congrArg String.data heq
  simp only [mkExternalIdV2, String.data_append, List.append_assoc] at hd
  have hd2 : (Nat.repr t1).data ++ '-' :: d1.data
      = (Nat.repr t2).data ++ '-' :: d2.data := by
    have := List.append_cancel_left hd
    simpa using this
  obtain ⟨hr, hdd⟩ := sep_split (Nat.repr t1).data d1.data (Nat.repr t2).data d2.data
    (repr_no_dash t1) (repr_no_dash t2) hd2
  constructor
  · have hdec : decodeDigits (Nat.toDigits 10 t1) = decodeDigits (Nat.toDigits 10 t2) := by
      have ha : (Nat.repr t1).data = Nat.toDigits 10 t1 := rfl
      have hb : (Nat.repr t2).data = Nat.toDigits 10 t2 := rfl
      rw [← ha, ← hb, hr]
    rwa [decode_toDigits, decode_toDigits] at hdec
  · exact String.ext hdd

/-! Characterizations of the webhook handler, one per control-flow branch. -/

/-- Branch 1: a missing or empty external_id or status answers 400 and
leaves the store unchanged. -/
theorem webhook_malformed_run (p : WebhookPayload) (db : DB)
    (h : (falsyStr p.external_id || falsyStr p.status) = true) :
    fapshiWebhookPOST p db = { statusCode := 400, db := db } := by
  unfold fapshiWebhookPOST
  rw [h]
  simp

/-- Branch 2: a correlation id matching no transaction answers 404 and
leaves the store unchanged. -/
theorem webhook_notfound_run (p : WebhookPayload) (db : DB) (e : String)
    (he : p.external_id = some e) (hne : e ≠ "")
    (hst : falsyStr p.status = false)
    (hfind : db.findTxnById e = none) :
    fapshiWebhookPOST p db = { statusCode := 404, db := db } := by
  have hfalsy1 : falsyStr p.external_id = false := by
    rw [he]; simp [falsyStr, hne]
  unfold fapshiWebhookPOST
  rw [hfalsy1, hst, he]
  simp only [Bool.or_self, Bool.false_eq_true, if_false, Option.getD_some]
  rw [hfind]

/-- Branch 3: a transaction already terminal answers 200 and leaves the
store unchanged. -/
theorem webhook_terminal_run (p : WebhookPayload) (db : DB) (e : String) (t : Txn)
    (he : p.external_id = some e) (hne : e ≠ "")
    (hst : falsyStr p.status = false)
    (hfind : db.findTxnById e = some t)
    (hterm : t.status ≠ TxStatus.Pending) :
    fapshiWebhookPOST p db = { statusCode := 200, db := db } := by
  have hfalsy1 : falsyStr p.external_id = false := by
    rw [he]; simp [falsyStr, hne]
  unfold fapshiWebhookPOST
  rw [hfalsy1, hst, he]
  simp only [Bool.or_self, Bool.false_eq_true, if_false, Option.getD_some]
  rw [hfind]
  simp [hterm]

/-- Branch 4: a success notification for a Pending transaction whose driver
is missing answers 500 and leaves the store unchanged. -/
theorem webhook_nodriver_run (p : WebhookPayload) (db : DB) (e : String) (t : Txn)
    (he : p.external_id = some e) (hne : e ≠ "")
    (hs : p.status = some "SUCCESS")
    (hfind : db.findTxnById e = some t)
    (hpend : t.status = TxStatus.Pending)
    (hnod : db.findDriverById t.userId = none) :
    fapshiWebhookPOST p db = { statusCode := 500, db := db } := by
  have hfalsy1 : falsyStr p.external_id = false := by
    rw [he]; simp [falsyStr, hne]
  have hfalsy2 : falsyStr p.status = false := by
    rw [hs]; simp [falsyStr]
  unfold fapshiWebhookPOST
  rw [hfalsy1, hfalsy2, he, hs]
  simp only [Bool.or_self, Bool.false_eq_true, if_false, Option.getD_some]
  rw [hfind]
  simp only [hpend, ne_eq, not_true_eq_false, if_false, beq_self_eq_true, if_true]
  rw [hnod]

/-- Branch 5: a success notification for a Pending transaction whose driver
exists increments that driver's balance by the stored amount and rewrites
the transaction to Success, recording the payload's transaction_id. -/
theorem webhook_success_run (p : WebhookPayload) (db : DB) (e : String) (t : Txn) (d : Driver)
    (he : p.external_id = some e) (hne : e ≠ "")
    (hs : p.status = some "SUCCESS")
    (hfind : db.findTxnById e = some t)
    (hpend : t.status = TxStatus.Pending)
    (hfd : db.findDriverById t.userId = some d) :
    fapshiWebhookPOST p db =
      { statusCode := 200,
        db := (db.updateDriver t.userId
            (fun x => { x with availableBalance := x.availableBalance + t.amount })).updateTxn
          t.id (fun x => { x with status := TxStatus.Success,
                                  fapshiTransactionId := p.transaction_id }) } := by
  have hfalsy1 : falsyStr p.external_id = false := by
    rw [he]; simp [falsyStr, hne]
  have hfalsy2 : falsyStr p.status = false := by
    rw [hs]; simp [falsyStr]
  unfold fapshiWebhookPOST
  rw [hfalsy1, hfalsy2, he, hs]
  simp only [Bool.or_self, Bool.false_eq_true, if_false, Option.getD_some]
  rw [hfind]
  simp only [hpend, ne_eq, not_true_eq_false, if_false, beq_self_eq_true, if_true]
  rw [hfd]

/-- Branch 6: a notification whose status token is present but is not
SUCCESS rewrites the matched Pending transaction to Failed and answers 200,
touching no driver. -/
theorem webhook_failure_run (p : WebhookPayload) (db : DB) (e s : String) (t : Txn)
    (he : p.external_id = some e) (hne : e ≠ "")
    (hs : p.status = some s) (hsne : s ≠ "") (hnsucc : s ≠ "SUCCESS")
    (hfind : db.findTxnById e = some t)
    (hpend : t.status = TxStatus.Pending) :
    fapshiWebhookPOST p db =
      { statusCode := 200,
        db := db.updateTxn t.id (fun x => { x with status := TxStatus.Failed }) } := by
  have hfalsy1 : falsyStr p.external_id = false := by
    rw [he]; simp [falsyStr, hne]
  have hfalsy2 : falsyStr p.status = false := by
    rw [hs]; simp [falsyStr, hsne]
  have hbeq : (s == "SUCCESS") = false := by
    simp [hnsucc]
  unfold fapshiWebhookPOST
  rw [hfalsy1, hfalsy2, he, hs]
  simp only [Bool.or_self, Bool.false_eq_true, if_false, Option.getD_some]
  rw [hfind]
  simp only [hpend, ne_eq, not_true_eq_false, if_false, hbeq]
  simp

/-- falsyStr is false exactly on a present, nonempty string. -/
theorem falsyStr_eq_false (o : Option String) :
    falsyStr o = false ↔ ∃ s, o = some s ∧ s ≠ "" := by
  cases o with
  | none => simp [falsyStr]
  | some s =>
    simp [falsyStr]

/-- One webhook delivery is idempotent on the store: running the handler a
second time on the store it produced changes nothing. -/
theorem webhookStep_idem (p : WebhookPayload) (db : DB) :
    webhookStep p (webhookStep p db) = webhookStep p db := by
  by_cases h1 : (falsyStr p.external_id || falsyStr p.status) = true
  · have hdb : webhookStep p db = db := by
      rw [webhookStep, webhook_malformed_run p db h1]
    simp only [hdb]
  · simp only [Bool.or_eq_true, not_or, Bool.not_eq_true] at h1
    obtain ⟨e, he, hne⟩ := (falsyStr_eq_false _).mp h1.1
    obtain ⟨s, hs, hsne⟩ := (falsyStr_eq_false _).mp h1.2
    cases hfind : db.findTxnById e with
    | none =>
      have hdb : webhookStep p db = db := by
        rw [webhookStep, webhook_notfound_run p db e he hne h1.2 hfind]
      simp only [hdb]
    | some t =>
      have htid : t.id = e := id_of_findTxnById db e t hfind
      subst htid
      by_cases hpend : t.status = TxStatus.Pending
      · by_cases hsucc : s = "SUCCESS"
        · subst hsucc
          cases hfd : db.findDriverById t.userId with
          | none =>
            have hdb : webhookStep p db = db := by
              rw [webhookStep, webhook_nodriver_run p db t.id t he hne hs hfind hpend hfd]
            simp only [hdb]
          | some d =>
            have hstep : webhookStep p db =
                (db.updateDriver t.userId
                  (fun x => { x with availableBalance := x.availableBalance + t.amount })).updateTxn
                  t.id (fun x => { x with status := TxStatus.Success,
                                          fapshiTransactionId := p.transaction_id }) := by
              rw [webhookStep, webhook_success_run p db t.id t d he hne hs hfind hpend hfd]
            have hft1 : (db.updateDriver t.userId
                (fun x => { x with availableBalance := x.availableBalance + t.amount })).findTxnById
                t.id = some t := by
              rw [findTxnById_updateDriver]; exact hfind
            have hft2 := findTxnById_updateTxn_found _ t.id
              (fun x => { x with status := TxStatus.Success,
                                 fapshiTransactionId := p.transaction_id })
              (fun _ => rfl) t hft1
            have hstep2 : webhookStep p (webhookStep p db) = webhookStep p db := by
              rw [hstep, webhookStep,
                webhook_terminal_run p _ t.id _ he hne h1.2 hft2 (by simp)]
            exact hstep2
        · have hstep : webhookStep p db =
              db.updateTxn t.id (fun x => { x with status := TxStatus.Failed }) := by
            rw [webhookStep, webhook_failure_run p db t.id s t he hne hs hsne hsucc hfind hpend]
          have hft2 := findTxnById_updateTxn_found db t.id
            (fun x => { x with status := TxStatus.Failed }) (fun _ => rfl) t hfind
          have hstep2 : webhookStep p (webhookStep p db) = webhookStep p db := by
            rw [hstep, webhookStep,
              webhook_terminal_run p _ t.id _ he hne h1.2 hft2 (by simp)]
          exact hstep2
      · have hdb : webhookStep p db = db := by
          rw [webhookStep, webhook_terminal_run p db t.id t he hne h1.2 hfind hpend]
        simp only [hdb]

/-- A delivery whose status is not the SUCCESS token never touches the
driver collection. -/
theorem webhookStep_drivers_of_not_success (p : WebhookPayload) (db : DB)
    (h : p.status ≠ some "SUCCESS") : (webhookStep p db).drivers = db.drivers := by
  by_cases h1 : (falsyStr p.external_id || falsyStr p.status) = true
  · rw [webhookStep, webhook_malformed_run p db h1]
  · simp only [Bool.or_eq_true, not_or, Bool.not_eq_true] at h1
    obtain ⟨e, he, hne⟩ := (falsyStr_eq_false _).mp h1.1
    obtain ⟨s, hs, hsne⟩ := (falsyStr_eq_false _).mp h1.2
    have hsucc : s ≠ "SUCCESS" := fun hc => h (hc ▸ hs)
    cases hfind : db.findTxnById e with
    | none => rw [webhookStep, webhook_notfound_run p db e he hne h1.2 hfind]
    | some t =>
      by_cases hpend : t.status = TxStatus.Pending
      · rw [webhookStep, webhook_failure_run p db e s t he hne hs hsne hsucc hfind hpend]
        rfl
      · rw [webhookStep, webhook_terminal_run p db e t he hne h1.2 hfind hpend]

/-! Claim theorems. -/

/-- C1 counterexample. The claim states that the success-webhook debit is
guarded by availableBalance >= amount so the balance cannot go negative.
On the store dbLow (driver d1 holds 100, transaction t1 is a Pending
withdrawal whose stored amount is -150, as created by the first route
variant), delivering a success notification for t1 drives the balance to
-50: the handler's findOneAndUpdate carries no balance filter, so the
debit is not guarded and the balance does go negative. -/
theorem c1_counterexample :
    dbLow.balance "d1" = some 100 ∧
    dbLow.txnStatus "t1" = some TxStatus.Pending ∧
    (fapshiWebhookPOST successPayload dbLow).statusCode = 200 ∧
    (fapshiWebhookPOST successPayload dbLow).db.balance "d1" = some (-50) ∧
    ((-50 : Int) < 0) := by
  decide

/-- C1 (amended). When the webhook handler receives a success notification
matching a Pending transaction whose owning driver exists, it increments the
driver's availableBalance by the transaction's stored amount with no balance
guard, transitions the transaction to Success, and records the provider
transaction id from the payload, all in the same handler invocation. -/
theorem c1_success_webhook_inc_and_finalize
    (db : DB) (p : WebhookPayload) (e : String) (t : Txn) (d : Driver)
    (he : p.external_id = some e) (hne : e ≠ "")
    (hs : p.status = some "SUCCESS")
    (hft : db.findTxnById e = some t)
    (hpend : t.status = TxStatus.Pending)
    (hfd : db.findDriverById t.userId = some d) :
    (fapshiWebhookPOST p db).statusCode = 200 ∧
    (fapshiWebhookPOST p db).db.balance t.userId
      = some (d.availableBalance + t.amount) ∧
    (fapshiWebhookPOST p db).db.txnStatus t.id = some TxStatus.Success ∧
    ((fapshiWebhookPOST p db).db.findTxnById t.id).map (fun x => x.fapshiTransactionId)
      = some p.transaction_id := by
  have htid : t.id = e := id_of_findTxnById db e t hft
  have hft2 : db.findTxnById t.id = some t := htid ▸ hft
  rw [webhook_success_run p db e t d he hne hs hft hpend hfd]
  set db1 := db.updateDriver t.userId
    (fun x => { x with availableBalance := x.availableBalance + t.amount }) with hdb1
  have hfd1 : db1.findDriverById t.userId =
      some { d with availableBalance := d.availableBalance + t.amount } :=
    findDriverById_updateDriver_found db t.userId
      (fun x => { x with availableBalance := x.availableBalance + t.amount })
      (fun _ => rfl) d hfd
  have hft1 : db1.findTxnById t.id = some t := by
    rw [hdb1, findTxnById_updateDriver]; exact hft2
  have hftFinal := findTxnById_updateTxn_found db1 t.id
    (fun x => { x with status := TxStatus.Success,
                       fapshiTransactionId := p.transaction_id })
    (fun _ => rfl) t hft1
  refine ⟨rfl, ?_, ?_, ?_⟩
  · simp only [DB.balance, findDriverById_updateTxn, hfd1]
    rfl
  · simp only [DB.txnStatus, hftFinal]
    rfl
  · simp only [hftFinal]
    rfl

/-- C1 witness: the amended theorem applied to a concrete store in which
driver d1 holds 100 and Pending withdrawal t1 stores amount -150. -/
theorem c1_witness :
    (fapshiWebhookPOST successPayload dbLow).statusCode = 200 ∧
    (fapshiWebhookPOST successPayload dbLow).db.balance txnNeg150.userId
      = some (drvLow.availableBalance + txnNeg150.amount) ∧
    (fapshiWebhookPOST successPayload dbLow).db.txnStatus txnNeg150.id
      = some TxStatus.Success ∧
    ((fapshiWebhookPOST successPayload dbLow).db.findTxnById txnNeg150.id).map
      (fun x => x.fapshiTransactionId) = some successPayload.transaction_id :=
  c1_success_webhook_inc_and_finalize dbLow successPayload "t1" txnNeg150 drvLow
    rfl (by decide) rfl rfl rfl rfl

/-- C3. The balance is never debited on the initiation path. The second
route variant never mutates any driver on any path, including the pending
outcome where the gateway accepted and returned a provider id. The first
variant never reaches a pending outcome at all: for every positive request
amount (Zod admits only amounts of at least 150) its negated stored amount
fails the Transaction schema's min-1 validation at create, so the call
answers with the store exactly as before and the gateway never invoked. -/
theorem c3_no_debit_on_initiation_path
    (db : DB) (a : String) (amt : Int) (m ph : String) (now : Nat)
    (nid : String) (gw : GatewayOutcome) :
    (initiateWithdrawalV2 db a amt m ph now nid gw).db.drivers = db.drivers ∧
    (1 ≤ amt → (initiateWithdrawalV1 db a amt m ph now nid gw).db = db ∧
      (initiateWithdrawalV1 db a amt m ph now nid gw).gatewayCalled = false) := by
  constructor
  · unfold initiateWithdrawalV2
    cases hfd : db.findDriverByAuthId a with
    | none => rfl
    | some driver =>
      by_cases hb : driver.availableBalance < amt
      · simp [hb]
      · simp only [if_neg hb]
        cases gw <;> rfl
  · intro hamt
    unfold initiateWithdrawalV1
    cases hfd : db.findDriverByAuthId a with
    | none => exact ⟨rfl, rfl⟩
    | some driver =>
      by_cases hb : driver.availableBalance < amt
      · simp [hb]
      · have hinv : ¬ txnAmountValid (-amt) := by
          unfold txnAmountValid
          omega
        simp only [if_neg hb, if_pos hinv]
        refine ⟨?_, ?_⟩ <;> trivial

/-- C3 witness: the theorem applied to the 1000-unit store and request
amount 400 with the gateway accepting: the second variant leaves the
drivers unchanged and the first variant returns with the store untouched
and no gateway call made. -/
theorem c3_witness :
    (initiateWithdrawalV2 dbRich "auth1" 400 "MTN" "+237650000001" 1700000000000
      "t1" (GatewayOutcome.accepted "f1")).db.drivers = dbRich.drivers ∧
    (initiateWithdrawalV1 dbRich "auth1" 400 "MTN" "+237650000001" 1700000000000
      "t1" (GatewayOutcome.accepted "f1")).db = dbRich ∧
    (initiateWithdrawalV1 dbRich "auth1" 400 "MTN" "+237650000001" 1700000000000
      "t1" (GatewayOutcome.accepted "f1")).gatewayCalled = false := by
  obtain ⟨h1, h2⟩ := c3_no_debit_on_initiation_path dbRich "auth1" 400 "MTN"
    "+237650000001" 1700000000000 "t1" (GatewayOutcome.accepted "f1")
  obtain ⟨h3, h4⟩ := h2 (by decide)
  exact ⟨h1, h3, h4⟩

/-- C4: the correlation id generated by the withdrawal initiator and stored
on the transaction is the externalId string, but the webhook handler looks
the transaction up with Transaction.findById, i.e. by Mongo _id. Evaluated
end to end: a second-variant initiation against driver
68ee0000000000000000d001 stores correlation id
withdrawal-1700000000000-68ee0000000000000000d001 on a transaction whose
_id is 68f0000000000000000000aa; the success webhook carrying back exactly
that correlation id answers 404 and changes nothing, so the lookup never
finds the transaction the initiator created. -/
theorem c4_webhook_lookup_misses_correlation_id :
    initHexRun.statusCode = 200 ∧
    initHexRun.db.txnStatus "68f0000000000000000000aa" = some TxStatus.Pending ∧
    (initHexRun.db.findTxnById "68f0000000000000000000aa").map (fun t => t.externalId)
      = some (some "withdrawal-1700000000000-68ee0000000000000000d001") ∧
    hexCallback.external_id
      = some "withdrawal-1700000000000-68ee0000000000000000d001" ∧
    fapshiWebhookPOST hexCallback initHexRun.db
      = { statusCode := 404, db := initHexRun.db } := by
  decide

/-- C2. Delivering the same webhook payload N+1 times leaves the store where
one delivery leaves it, so the balance is mutated at most once across all
deliveries; once the matched transaction is terminal (not Pending), a
delivery changes nothing; and a delivery that touches any driver balance can
only have carried the SUCCESS status, so a first delivery with a failure
notification mutates no balance then or ever after. -/
theorem c2_webhook_idempotent_after_terminal (p : WebhookPayload) (db : DB) (n : Nat) :
    (webhookStep p)^[n + 1] db = webhookStep p db ∧
    ((∃ e t, p.external_id = some e ∧ db.findTxnById e = some t ∧
        t.status ≠ TxStatus.Pending) → webhookStep p db = db) ∧
    ((webhookStep p db).drivers ≠ db.drivers → p.status = some "SUCCESS") := by
  refine ⟨?_, ?_, ?_⟩
  · induction n with
    | zero => simp
    | succ k ih => rw [Function.iterate_succ_apply', ih, webhookStep_idem]
  · rintro ⟨e, t, he, hfind, hterm⟩
    by_cases h1 : (falsyStr p.external_id || falsyStr p.status) = true
    · rw [webhookStep, webhook_malformed_run p db h1]
    · simp only [Bool.or_eq_true, not_or, Bool.not_eq_true] at h1
      obtain ⟨e2, he2, hne2⟩ := (falsyStr_eq_false _).mp h1.1
      have : e2 = e := by rw [he] at he2; exact (Option.some.inj he2).symm
      subst this
      rw [webhookStep, webhook_terminal_run p db e2 t he hne2 h1.2 hfind hterm]
  · intro hchanged
    by_contra hnot
    exact hchanged (webhookStep_drivers_of_not_success p db hnot)

/-- C2 witness: the theorem applied to a store whose transaction t1 is
already Success, showing a redelivery leaves the store unchanged. -/
theorem c2_witness : webhookStep successPayload dbDone = dbDone :=
  (c2_webhook_idempotent_after_terminal successPayload dbDone 0).2.1
    ⟨"t1", txnDone, rfl, by decide⟩

/-- C5 counterexample. The claim states that a transport-level ambiguity
(network failure, timeout, unparseable body) leaves the transaction Pending,
not marked Failed. Under the second route variant, with driver d1 holding
1000, a 400-unit withdrawal whose fetch throws (transport error) leaves
transaction t1 in status Failed, not Pending, and the route answers 500. -/
theorem c5_counterexample :
    (initiateWithdrawalV2 dbRich "auth1" 400 "MTN" "+237650000001" 1700000000000
      "t1" GatewayOutcome.transportError).db.txnStatus "t1" = some TxStatus.Failed ∧
    (initiateWithdrawalV2 dbRich "auth1" 400 "MTN" "+237650000001" 1700000000000
      "t1" GatewayOutcome.transportError).statusCode = 500 := by
  decide

/-- C5 (amended). Under the second route variant, a transport error or an
unparseable gateway response leaves no provider transaction id on the
created transaction and changes no driver balance, but the transaction is
marked Failed, not left Pending, and the route answers 500. -/
theorem c5_transport_ambiguity_marks_failed
    (db : DB) (d : Driver) (a : String) (amt : Int) (m ph : String) (now : Nat)
    (nid : String) (gw : GatewayOutcome)
    (hd : db.findDriverByAuthId a = some d)
    (hbal : ¬ d.availableBalance < amt)
    (hfresh : db.findTxnById nid = none)
    (hgw : gw = GatewayOutcome.transportError ∨ ∃ s, gw = GatewayOutcome.unparseable s) :
    (initiateWithdrawalV2 db a amt m ph now nid gw).statusCode = 500 ∧
    (initiateWithdrawalV2 db a amt m ph now nid gw).db.txnStatus nid
      = some TxStatus.Failed ∧
    ((initiateWithdrawalV2 db a amt m ph now nid gw).db.findTxnById nid).map
      (fun t => t.fapshiTransactionId) = some none ∧
    (initiateWithdrawalV2 db a amt m ph now nid gw).db.drivers = db.drivers := by
  have hfind1 : ∀ (x : Txn), x.id = nid →
      (DB.mk db.drivers (db.transactions ++ [x])).findTxnById nid = some x := by
    intro x hx
    simp only [DB.findTxnById] at hfresh ⊢
    exact find_append_single _ db.transactions x hfresh (by simp [hx])
  rcases hgw with hgw | ⟨s, hgw⟩ <;> subst hgw <;>
    unfold initiateWithdrawalV2 <;> rw [hd] <;> simp only [if_neg hbal]
  · have h1 := hfind1
      { id := nid, userId := d.id, userType := "Driver", type := "Withdrawal",
        status := TxStatus.Pending, amount := amt, method := m,
        phoneNumber := ph, externalId := some (mkExternalIdV2 now d.id),
        fapshiTransactionId := none } rfl
    have h2 := findTxnById_updateTxn_found _ nid
      (fun x => { x with status := TxStatus.Failed }) (fun _ => rfl) _ h1
    exact ⟨trivial, by simp only [DB.txnStatus, h2]; rfl, by simp only [h2]; rfl, rfl⟩
  · have h1 := hfind1
      { id := nid, userId := d.id, userType := "Driver", type := "Withdrawal",
        status := TxStatus.Pending, amount := amt, method := m,
        phoneNumber := ph, externalId := some (mkExternalIdV2 now d.id),
        fapshiTransactionId := none } rfl
    have h2 := findTxnById_updateTxn_found _ nid
      (fun x => { x with status := TxStatus.Failed }) (fun _ => rfl) _ h1
    have h3 := findTxnById_updateTxn_found _ nid
      (fun x => { x with status := TxStatus.Failed }) (fun _ => rfl) _ h2
    exact ⟨trivial, by simp only [DB.txnStatus, h3]; rfl, by simp only [h3]; rfl, rfl⟩

/-- C5 witness: the amended theorem applied to the 1000-unit store with a
transport error. -/
theorem c5_witness :
    (initiateWithdrawalV2 dbRich "auth1" 400 "MTN" "+237650000001" 1700000000000
      "t1" GatewayOutcome.transportError).statusCode = 500 ∧
    (initiateWithdrawalV2 dbRich "auth1" 400 "MTN" "+237650000001" 1700000000000
      "t1" GatewayOutcome.transportError).db.txnStatus "t1" = some TxStatus.Failed ∧
    ((initiateWithdrawalV2 dbRich "auth1" 400 "MTN" "+237650000001" 1700000000000
      "t1" GatewayOutcome.transportError).db.findTxnById "t1").map
      (fun t => t.fapshiTransactionId) = some none ∧
    (initiateWithdrawalV2 dbRich "auth1" 400 "MTN" "+237650000001" 1700000000000
      "t1" GatewayOutcome.transportError).db.drivers = dbRich.drivers :=
  c5_transport_ambiguity_marks_failed dbRich drvRich "auth1" 400 "MTN"
    "+237650000001" 1700000000000 "t1" GatewayOutcome.transportError
    rfl (by decide) rfl (Or.inl rfl)

/-- C6 counterexample. The claim states that a webhook whose correlation id
matches no stored transaction is acknowledged with HTTP 2xx, and that a
non-2xx status is returned only for payloads missing the mandatory fields.
Delivering a well-formed success notification with an unknown correlation
id against the 1000-unit store answers 404, not a 2xx acknowledgement
(the store is indeed left unchanged). -/
theorem c6_counterexample :
    (fapshiWebhookPOST unknownPayload dbRich).statusCode = 404 ∧
    (fapshiWebhookPOST unknownPayload dbRich).statusCode ≠ 200 ∧
    (fapshiWebhookPOST unknownPayload dbRich).db = dbRich := by
  decide

/-- C6 (amended). A webhook delivery missing (or carrying empty) mandatory
fields answers 400 with the store unchanged; a well-formed delivery whose
correlation id matches no stored transaction mutates no Account and no
Transaction but answers 404, not a success acknowledgement. -/
theorem c6_unknown_webhook_no_mutation (p : WebhookPayload) (db : DB) :
    ((falsyStr p.external_id || falsyStr p.status) = true →
      fapshiWebhookPOST p db = { statusCode := 400, db := db }) ∧
    (∀ e, p.external_id = some e → e ≠ "" → falsyStr p.status = false →
      db.findTxnById e = none →
      fapshiWebhookPOST p db = { statusCode := 404, db := db }) :=
  ⟨fun h => webhook_malformed_run p db h,
   fun e he hne hst hfind => webhook_notfound_run p db e he hne hst hfind⟩

/-- C6 witness: the amended theorem applied to a fully missing payload (400)
and to an unknown correlation id (404), both leaving the store unchanged. -/
theorem c6_witness :
    fapshiWebhookPOST emptyPayload dbRich = { statusCode := 400, db := dbRich } ∧
    fapshiWebhookPOST unknownPayload dbRich = { statusCode := 404, db := dbRich } :=
  ⟨(c6_unknown_webhook_no_mutation emptyPayload dbRich).1 rfl,
   (c6_unknown_webhook_no_mutation unknownPayload dbRich).2 "withdraw-999-unknown"
     rfl (by decide) rfl rfl⟩

/-- C7 counterexample. The claim states that a status token that is neither
a recognized success token nor a recognized failure token leaves the matched
transaction Pending. Delivering status CREATED for Pending transaction t1
transitions it to Failed: the handler treats every non-SUCCESS token as a
failure. -/
theorem c7_counterexample :
    dbLow.txnStatus "t1" = some TxStatus.Pending ∧
    (fapshiWebhookPOST createdPayload dbLow).db.txnStatus "t1"
      = some TxStatus.Failed ∧
    (fapshiWebhookPOST createdPayload dbLow).statusCode = 200 := by
  decide

/-- C7 (amended). A webhook delivery whose status token is present but is
not SUCCESS — including unrecognized tokens — transitions the matched
Pending transaction to Failed (not left Pending), changes no driver
balance, and the endpoint acknowledges receipt with 200. -/
theorem c7_unrecognized_status_marks_failed
    (p : WebhookPayload) (db : DB) (e s : String) (t : Txn)
    (he : p.external_id = some e) (hne : e ≠ "")
    (hs : p.status = some s) (hsne : s ≠ "") (hnsucc : s ≠ "SUCCESS")
    (hfind : db.findTxnById e = some t)
    (hpend : t.status = TxStatus.Pending) :
    (fapshiWebhookPOST p db).statusCode = 200 ∧
    (fapshiWebhookPOST p db).db.txnStatus t.id = some TxStatus.Failed ∧
    (fapshiWebhookPOST p db).db.drivers = db.drivers := by
  have htid : t.id = e := id_of_findTxnById db e t hfind
  rw [webhook_failure_run p db e s t he hne hs hsne hnsucc hfind hpend]
  have h2 := findTxnById_updateTxn_found db t.id
    (fun x => { x with status := TxStatus.Failed }) (fun _ => rfl) t
    (by rw [htid]; exact hfind)
  exact ⟨rfl, by simp only [DB.txnStatus, h2]; rfl, rfl⟩

/-- C7 witness: the amended theorem applied to status CREATED against the
store holding Pending transaction t1. -/
theorem c7_witness :
    (fapshiWebhookPOST createdPayload dbLow).statusCode = 200 ∧
    (fapshiWebhookPOST createdPayload dbLow).db.txnStatus txnNeg150.id
      = some TxStatus.Failed ∧
    (fapshiWebhookPOST createdPayload dbLow).db.drivers = dbLow.drivers :=
  c7_unrecognized_status_marks_failed createdPayload dbLow "t1" "CREATED"
    txnNeg150 rfl (by decide) rfl (by decide) (by decide) rfl rfl

/-- C8. In both route variants, when the driver exists and holds strictly
less than the requested amount, the route answers 400 carrying the current
balance and the required amount, creates no transaction, calls no gateway,
and leaves the store exactly as it was. -/
theorem c8_insufficient_funds_rejected
    (db : DB) (d : Driver) (a : String) (amt : Int) (m ph : String) (now : Nat)
    (nid : String) (gw : GatewayOutcome)
    (hd : db.findDriverByAuthId a = some d)
    (hlt : d.availableBalance < amt) :
    initiateWithdrawalV1 db a amt m ph now nid gw =
      { statusCode := 400, db := db, gatewayCalled := false,
        currentBalance := some d.availableBalance, required := some amt,
        newBalance := none, transId := none, transactionId := none } ∧
    initiateWithdrawalV2 db a amt m ph now nid gw =
      { statusCode := 400, db := db, gatewayCalled := false,
        currentBalance := some d.availableBalance, required := some amt,
        newBalance := none, transId := none, transactionId := none } := by
  constructor
  · unfold initiateWithdrawalV1
    rw [hd]
    simp only [if_pos hlt]
  · unfold initiateWithdrawalV2
    rw [hd]
    simp only [if_pos hlt]

/-- C8 witness: withdrawing 800 while the balance is 600 is rejected with
currentBalance 600 and required 800 in both variants. -/
theorem c8_witness :
    initiateWithdrawalV1 dbMid "auth1" 800 "MTN" "+237650000001" 1700000000000
      "t1" (GatewayOutcome.accepted "f1") =
      { statusCode := 400, db := dbMid, gatewayCalled := false,
        currentBalance := some 600, required := some 800,
        newBalance := none, transId := none, transactionId := none } ∧
    initiateWithdrawalV2 dbMid "auth1" 800 "MTN" "+237650000001" 1700000000000
      "t1" (GatewayOutcome.accepted "f1") =
      { statusCode := 400, db := dbMid, gatewayCalled := false,
        currentBalance := some 600, required := some 800,
        newBalance := none, transId := none, transactionId := none } :=
  c8_insufficient_funds_rejected dbMid drvMid "auth1" 800 "MTN" "+237650000001"
    1700000000000 "t1" (GatewayOutcome.accepted "f1") rfl (by decide)

/-- C10. When a success notification matches a Pending withdrawal whose
userId has no corresponding driver, the handler answers 500 (not a success
acknowledgement, so the gateway will redeliver) and leaves the store
unchanged: the transaction stays Pending with no provider id recorded. -/
theorem c10_missing_driver_500_no_mutation
    (p : WebhookPayload) (db : DB) (e : String) (t : Txn)
    (he : p.external_id = some e) (hne : e ≠ "")
    (hs : p.status = some "SUCCESS")
    (hfind : db.findTxnById e = some t)
    (hpend : t.status = TxStatus.Pending)
    (hnod : db.findDriverById t.userId = none) :
    fapshiWebhookPOST p db = { statusCode := 500, db := db } :=
  webhook_nodriver_run p db e t he hne hs hfind hpend hnod

/-- C10 witness: the theorem applied to a store whose Pending transaction
references the nonexistent driver ghost. -/
theorem c10_witness :
    fapshiWebhookPOST successPayload dbOrphan = { statusCode := 500, db := dbOrphan } :=
  c10_missing_driver_500_no_mutation successPayload dbOrphan "t1" txnOrphan
    rfl (by decide) rfl rfl rfl rfl

/-- C9 counterexample. The claim states that every two distinct invocations
of the withdrawal initiator, including two same-millisecond requests from
the same driver, generate distinct correlation ids. Modelling an invocation
as (Date.now value, driver id, request sequence number), the generated id
depends only on the first two components, so the two distinct invocations
numbered 0 and 1 issued in millisecond 1700000000000 by driver
68ee0000000000000000d001 generate the same id. -/
theorem c9_counterexample :
    ¬ ∀ (inv1 inv2 : Nat × String × Nat), inv1 ≠ inv2 →
        mkExternalIdV2 inv1.1 inv1.2.1 ≠ mkExternalIdV2 inv2.1 inv2.2.1 := by
  intro h
  exact h (1700000000000, "68ee0000000000000000d001", 0)
    (1700000000000, "68ee0000000000000000d001", 1) (by decide) rfl

/-- C9 (amended). The correlation ids generated by the second route variant
are distinct whenever the two invocations differ in their millisecond
timestamp or in their driver id; only two same-millisecond invocations by
the same driver collide (the schema's unique sparse index on externalId then
rejects the second insert rather than reusing the id). -/
theorem c9_distinct_unless_same_ms_same_driver
    (t1 t2 : Nat) (d1 d2 : String) (hne : (t1, d1) ≠ (t2, d2)) :
    mkExternalIdV2 t1 d1 ≠ mkExternalIdV2 t2 d2 := by
  intro heq
  obtain ⟨ht, hd⟩ := mkExternalIdV2_inj t1 t2 d1 d2 heq
  exact hne (by rw [ht, hd])

/-- C9 witness: ids generated one millisecond apart by the same driver
differ. -/
theorem c9_witness :
    mkExternalIdV2 1700000000000 "68ee0000000000000000d001"
      ≠ mkExternalIdV2 1700000000001 "68ee0000000000000000d001" :=
  c9_distinct_unless_same_ms_same_driver 1700000000000 1700000000001
    "68ee0000000000000000d001" "68ee0000000000000000d001" (by decide)

end TaxiMoney
